import Mathlib

/-!
Verification of the MCP search server of this repository.

The embedded code lives in two files:
* `search_agent/mcp_server/search/search.py` — `AzureAISearchClient`
  (`__init__`, `search`, `_format_results`);
* `search_agent/mcp_server/server.py` — module-level startup
  (`MCP_AUTH_KEY` check, reranker configuration), `APIKeyMiddleware.dispatch`,
  and the `search` tool.

The backend (Azure AI Search) is modelled as an oracle: a call outcome is an
`Except BackendError (List RawHit)` passed as an argument to the embedded
`search` pipeline. Reranker scores and the threshold are Python floats; they
are modelled as `Rat`, since the embedded code only compares and never
performs float arithmetic on them.
-/

namespace MCPSearch

/-- A raw backend hit, as consumed by `AzureAISearchClient.search`.
Each field is read via `dict.get`, so it may be absent (`none`).
`rerankerScore` models the `@search.reranker_score` key, which may be
absent or `None`. -/
structure RawHit where
  chunk : Option String
  title : Option String
  url : Option String
  rerankerScore : Option Rat
deriving DecidableEq, Repr

/-- The caller-facing result shape produced by
`AzureAISearchClient._format_results`. -/
structure FormattedResult where
  chunk : String
  title : String
  url : String
deriving DecidableEq, Repr

/-- Errors raised while talking to the backend, as distinguished by the two
`except` clauses of `AzureAISearchClient.search`:
`HttpResponseError` and any other `Exception`. -/
inductive BackendError where
  | httpResponseError (msg : String)
  | otherError (msg : String)
deriving DecidableEq, Repr

/-- The fused search request sent to the backend: `search_params` together
with the single `VectorizableTextQuery` in `vector_queries`. -/
structure SearchParams where
  searchText : String
  kNearestNeighbors : Nat
  top : Nat
  semanticQuery : Bool
deriving DecidableEq, Repr

/-- `vector_k = 50 if use_semantic_reranker else max_results`
(search.py line 77). -/
def vectorK (useSemanticReranker : Bool) (maxResults : Nat) : Nat :=
  if useSemanticReranker then 50 else maxResults

/-- The request-construction part of `AzureAISearchClient.search`
(search.py lines 77-104): the vector sub-query's `k_nearest_neighbors`
is `vector_k`, `top` is `50 if use_semantic_reranker else max_results`,
and semantic reranking mode is requested iff `use_semantic_reranker`. -/
def buildSearchParams (query : String) (maxResults : Nat)
    (useSemanticReranker : Bool) : SearchParams :=
  { searchText := query
    kNearestNeighbors := vectorK useSemanticReranker maxResults
    top := if useSemanticReranker then 50 else maxResults
    semanticQuery := useSemanticReranker }

/-- The condition of the filter loop (search.py line 119):
`reranker_score is not None and reranker_score >= reranker_threshold`. -/
def meetsThreshold (threshold : Rat) (r : RawHit) : Bool :=
  match r.rerankerScore with
  | none => false
  | some s => threshold ≤ s

/-- The accumulator loop of search.py lines 113-120:
`filtered_results = []` then `for result in raw_results: if ... append`. -/
def filterLoop (threshold : Rat) (rawResults : List RawHit) : List RawHit :=
  rawResults.foldl
    (fun acc r => if meetsThreshold threshold r then acc ++ [r] else acc) []

/-- Post-processing of the backend hits (search.py lines 111-122): when the
reranker is enabled, run the filter loop and slice to
`filtered_results[:max_results]`; otherwise the raw list is left as is. -/
def processHits (useSemanticReranker : Bool) (threshold : Rat)
    (maxResults : Nat) (rawResults : List RawHit) : List RawHit :=
  if useSemanticReranker then (filterLoop threshold rawResults).take maxResults
  else rawResults

/-- Everything of `s` strictly before its last occurrence of `sep`; `cs`
itself when `sep` does not occur. This is the semantics of Python's
`s.rsplit(sep, 1)[0]`. -/
def rsplitHead (sep : Char) (cs : List Char) : List Char :=
  match cs.reverse.dropWhile (fun c => c != sep) with
  | [] => cs
  | _ :: rest => rest.reverse

/-- The title transform of `_format_results` (search.py line 145):
`title.rsplit('.', 1)[0]`. -/
def stripExtension (s : String) : String :=
  String.mk (rsplitHead '.' s.data)

/-- One iteration of `_format_results` (search.py lines 143-148):
`chunk` and `url` default to `""` and pass through; the title is
transformed by `rsplit`. -/
def formatResult (r : RawHit) : FormattedResult :=
  { chunk := r.chunk.getD ""
    title := stripExtension (r.title.getD "")
    url := r.url.getD "" }

/-- `AzureAISearchClient._format_results` (search.py lines 131-151). -/
def formatResults (rawResults : List RawHit) : List FormattedResult :=
  rawResults.map formatResult

/-- `AzureAISearchClient.search` from the backend call onwards
(search.py lines 105-129): on a successful backend response the hits are
post-processed and formatted; both `except` clauses print and return `[]`. -/
def clientSearch (maxResults : Nat) (useSemanticReranker : Bool)
    (rerankerThreshold : Rat)
    (backendOutcome : Except BackendError (List RawHit)) :
    List FormattedResult :=
  match backendOutcome with
  | .error _ => []
  | .ok rawResults =>
      formatResults (processHits useSemanticReranker rerankerThreshold
        maxResults rawResults)

/-- The process environment, restricted to the variables the embedded code
reads. String variables are `Option String` (`os.getenv` returns `None`
when unset); `RERANKER_THRESHOLD` is abstracted to the parsed number. -/
structure Env where
  mcpAuthKey : Option String
  azureSearchEndpoint : Option String
  azureSearchKey : Option String
  azureSearchIndex : Option String
  useSemanticRerankerVar : Option String
  rerankerThresholdVar : Option Rat
deriving DecidableEq, Repr

/-- Python truthiness of an `os.getenv` result: `None` and `""` are falsy
(the source guards are written `if not value`). -/
def truthy (o : Option String) : Bool :=
  match o with
  | none => false
  | some s => !s.isEmpty

/-- Python's `str.lower()`, character by character (the configuration values
compared by the source are ASCII). -/
def strLower (s : String) : String :=
  String.mk (s.data.map Char.toLower)

/-- The process-wide configuration built at server startup. -/
structure ServerConfig where
  mcpAuthKey : String
  useSemanticReranker : Bool
  rerankerThreshold : Rat
deriving DecidableEq, Repr

/-- Module-level startup of server.py (lines 25-32): raise `ValueError` when
`MCP_AUTH_KEY` is unset or empty, otherwise read
`USE_SEMANTIC_RERANKER` (default `"false"`, lowered and compared to
`"true"`) and `RERANKER_THRESHOLD` (default 2.5). Note that the backend
connection variables are NOT read here. -/
def serverStartup (env : Env) : Except String ServerConfig :=
  if truthy env.mcpAuthKey then
    .ok { mcpAuthKey := env.mcpAuthKey.getD ""
          useSemanticReranker :=
            strLower (env.useSemanticRerankerVar.getD "false") == "true"
          rerankerThreshold := env.rerankerThresholdVar.getD (mkRat 5 2) }
  else .error "MCP_AUTH_KEY environment variable not set"

/-- The connection data held by a constructed `AzureAISearchClient`. -/
structure ClientConfig where
  searchEndpoint : String
  searchKey : String
  searchIndex : String
deriving DecidableEq, Repr

/-- `AzureAISearchClient.__init__` (search.py lines 29-49): reads the three
backend variables and raises `ValueError` if any is unset or empty,
checking the key first, then the endpoint, then the index name. -/
def clientInit (env : Env) : Except String ClientConfig :=
  if !truthy env.azureSearchKey then
    .error "AZURE_SEARCH_KEY environment variable is required"
  else if !truthy env.azureSearchEndpoint then
    .error "AZURE_SEARCH_ENDPOINT environment variable is required"
  else if !truthy env.azureSearchIndex then
    .error "AZURE_SEARCH_INDEX environment variable is required"
  else
    .ok { searchEndpoint := env.azureSearchEndpoint.getD ""
          searchKey := env.azureSearchKey.getD ""
          searchIndex := env.azureSearchIndex.getD "" }

/-- An inbound HTTP request as seen by the middleware: its headers and an
opaque payload. -/
structure HttpRequest where
  headers : List (String × String)
  body : String
deriving DecidableEq, Repr

/-- The outcome of `APIKeyMiddleware.dispatch`: either a JSON rejection with
a status code, or the request handed to `call_next` unchanged. -/
inductive DispatchOutcome where
  | rejected (status : Nat) (body : List (String × String))
  | forwarded (req : HttpRequest)
deriving DecidableEq, Repr

/-- `APIKeyMiddleware.dispatch` (server.py lines 41-47):
`api_key = request.headers.get("X-API-KEY")`; if it differs from the
configured secret, answer `JSONResponse({"error": "Unauthorized"}, 401)`
without calling `call_next`; otherwise forward the request. -/
def dispatch (mcpAuthKey : String) (req : HttpRequest) : DispatchOutcome :=
  let apiKey := req.headers.lookup "X-API-KEY"
  if apiKey = some mcpAuthKey then .forwarded req
  else .rejected 401 [("error", "Unauthorized")]

/-- The JSON rendering of a `FormattedResult` as built by
`_format_results`: a dict with keys `chunk`, `title`, `url`. -/
def formattedToDict (f : FormattedResult) : List (String × String) :=
  [("chunk", f.chunk), ("title", f.title), ("url", f.url)]

/-- The synthetic entry the `search` tool returns when an exception reaches
its `except` clause (server.py line 69). Its text field is keyed
`content`. -/
def syntheticErrorEntry (msg : String) : List (String × String) :=
  [("title", "Search Error"), ("url", ""),
   ("content", "Could not perform a search at this time: " ++ msg)]

/-- The `search` tool of server.py (lines 55-69): construct an
`AzureAISearchClient` (which reads the environment and may raise), run
`clientSearch` with the process configuration, and return its results;
any exception reaching the tool is rendered as one synthetic entry.
Since `clientSearch` catches every backend error itself, the only raise
site inside the `try` block is the client constructor. -/
def toolSearch (env : Env) (cfg : ServerConfig) (_query : String)
    (maxResults : Nat)
    (backendOutcome : Except BackendError (List RawHit)) :
    List (List (String × String)) :=
  match clientInit env with
  | .error msg => [syntheticErrorEntry msg]
  | .ok _ =>
      (clientSearch maxResults cfg.useSemanticReranker cfg.rerankerThreshold
        backendOutcome).map formattedToDict

/-! ### Helper lemmas -/

theorem foldl_append_filter {α : Type} (p : α → Bool) (l acc : List α) :
    l.foldl (fun acc r => if p r then acc ++ [r] else acc) acc =
      acc ++ l.filter p := by
  induction l generalizing acc with
  | nil => simp
  | cons x xs ih =>
      by_cases h : p x = true
      · simp [List.foldl_cons, List.filter_cons, h, ih]
      · simp only [Bool.not_eq_true] at h
        simp [List.foldl_cons, List.filter_cons, h, ih]

/-- The append-in-a-loop filter of search.py lines 113-120 computes exactly
`List.filter` of the loop condition. -/
theorem filterLoop_eq_filter (threshold : Rat) (l : List RawHit) :
    filterLoop threshold l = l.filter (meetsThreshold threshold) := by
  simpa using foldl_append_filter (meetsThreshold threshold) l []

theorem dropWhile_append_of_forall {α : Type} {p : α → Bool} {l₁ l₂ : List α}
    (h : ∀ x ∈ l₁, p x = true) :
    (l₁ ++ l₂).dropWhile p = l₂.dropWhile p := by
  induction l₁ with
  | nil => rfl
  | cons x xs ih =>
      have hx : p x = true := h x (by simp)
      simp only [List.cons_append, List.dropWhile_cons, hx, if_true]
      exact ih fun y hy => h y (by simp [hy])

theorem rsplitHead_of_not_mem {sep : Char} {cs : List Char} (h : sep ∉ cs) :
    rsplitHead sep cs = cs := by
  have hnil : cs.reverse.dropWhile (fun c => c != sep) = [] := by
    rw [List.dropWhile_eq_nil_iff]
    intro x hx
    rw [List.mem_reverse] at hx
    simp only [bne_iff_ne, ne_eq]
    intro hxe
    exact h (hxe ▸ hx)
  unfold rsplitHead
  rw [hnil]

theorem rsplitHead_last_sep {sep : Char} (a : List Char) {b : List Char}
    (h : sep ∉ b) :
    rsplitHead sep (a ++ sep :: b) = a := by
  have hdrop : ((a ++ sep :: b).reverse).dropWhile (fun c => c != sep) =
      sep :: a.reverse := by
    rw [List.reverse_append, List.reverse_cons, List.append_assoc]
    rw [dropWhile_append_of_forall (p := fun c => c != sep)
      (fun x hx => by
        rw [List.mem_reverse] at hx
        simp only [bne_iff_ne, ne_eq]
        intro hxe
        exact h (hxe ▸ hx))]
    simp [List.dropWhile_cons]
  unfold rsplitHead
  rw [hdrop]
  exact List.reverse_reverse a

theorem string_mk_data (s : String) : String.mk s.data = s := rfl

/-- The title transform leaves a dot-free title unchanged. -/
theorem stripExtension_no_dot {s : String} (h : '.' ∉ s.data) :
    stripExtension s = s := by
  unfold stripExtension
  rw [rsplitHead_of_not_mem h, string_mk_data]

/-- The title transform keeps exactly the part before the last dot. -/
theorem stripExtension_last_dot (a : List Char) {b : List Char}
    (h : '.' ∉ b) :
    stripExtension (String.mk (a ++ '.' :: b)) = String.mk a := by
  unfold stripExtension
  rw [show (String.mk (a ++ '.' :: b)).data =
        a ++ '.' :: b from rfl,
    rsplitHead_last_sep a h]

theorem length_formatResults (l : List RawHit) :
    (formatResults l).length = l.length := by
  unfold formatResults
  exact List.length_map l formatResult

theorem processHits_sublist (useSemanticReranker : Bool) (threshold : Rat)
    (maxResults : Nat) (l : List RawHit) :
    List.Sublist (processHits useSemanticReranker threshold maxResults l) l := by
  unfold processHits
  by_cases h : useSemanticReranker = true
  · rw [h, if_pos rfl, filterLoop_eq_filter]
    exact List.Sublist.trans
      (List.take_sublist maxResults (l.filter (meetsThreshold threshold)))
      (List.filter_sublist l)
  · simp only [Bool.not_eq_true] at h
    rw [h]
    simp

/-! ### Claim theorems -/

/-- C1: with semantic reranking enabled, the orchestrator first discards
every backend hit whose reranker score does not meet the threshold and only
afterwards truncates the remaining list, preserving backend order, to its
first `max_results` entries; the result is the formatting of the first
`max_results` elements of the threshold-filtered subsequence of the backend
hit list. -/
theorem filter_before_truncate (threshold : Rat) (maxResults : Nat)
    (hits : List RawHit) :
    processHits true threshold maxResults hits =
        (hits.filter (meetsThreshold threshold)).take maxResults ∧
      List.Sublist (processHits true threshold maxResults hits) hits ∧
      clientSearch maxResults true threshold (.ok hits) =
        formatResults
          ((hits.filter (meetsThreshold threshold)).take maxResults) := by
  have h : processHits true threshold maxResults hits =
      (hits.filter (meetsThreshold threshold)).take maxResults := by
    unfold processHits
    rw [if_pos rfl, filterLoop_eq_filter]
  refine ⟨h, processHits_sublist true threshold maxResults hits, ?_⟩
  show formatResults (processHits true threshold maxResults hits) = _
  rw [h]

/-- C2: the vector sub-query's `k_nearest_neighbors` is 50 whenever semantic
reranking is enabled, regardless of the requested `max_results` in [1, 100],
and equals `max_results` exactly when reranking is disabled. -/
theorem oversample_count (query : String) (maxResults : Nat)
    (_h1 : 1 ≤ maxResults) (_h2 : maxResults ≤ 100) :
    (buildSearchParams query maxResults true).kNearestNeighbors = 50 ∧
      (buildSearchParams query maxResults false).kNearestNeighbors =
        maxResults :=
  ⟨rfl, rfl⟩

/-- C2 witness: at `max_results = 3` the reranking oversample is 50 and the
plain oversample is 3. -/
theorem oversample_count_witness :
    1 ≤ 3 ∧ 3 ≤ 100 ∧
      (buildSearchParams "q" 3 true).kNearestNeighbors = 50 ∧
      (buildSearchParams "q" 3 false).kNearestNeighbors = 3 :=
  ⟨by decide, by decide,
    (oversample_count "q" 3 (by decide) (by decide)).1,
    (oversample_count "q" 3 (by decide) (by decide)).2⟩

/-- C3: every backend error is absorbed by the orchestrator, which returns
the empty result list; its outcome is always a plain list of results. -/
theorem backend_error_degrades_to_empty (maxResults : Nat)
    (useSemanticReranker : Bool) (threshold : Rat) (e : BackendError) :
    clientSearch maxResults useSemanticReranker threshold (.error e) = [] :=
  rfl

/-- C5: when the backend honours the `top` parameter sent to it, the
returned sequence has length at most `max_results`, is the formatting of a
subsequence of the backend order, and, with reranking enabled, every
surviving hit meets the reranker threshold. -/
theorem search_output_invariant (query : String) (maxResults : Nat)
    (useSemanticReranker : Bool) (threshold : Rat) (hits : List RawHit)
    (hlen : hits.length ≤
      (buildSearchParams query maxResults useSemanticReranker).top) :
    (clientSearch maxResults useSemanticReranker threshold
        (.ok hits)).length ≤ maxResults ∧
      List.Sublist
        (processHits useSemanticReranker threshold maxResults hits) hits ∧
      clientSearch maxResults useSemanticReranker threshold (.ok hits) =
        formatResults
          (processHits useSemanticReranker threshold maxResults hits) ∧
      (useSemanticReranker = true →
        ∀ r ∈ processHits useSemanticReranker threshold maxResults hits,
          meetsThreshold threshold r = true) := by
  refine ⟨?_, processHits_sublist useSemanticReranker threshold maxResults hits,
    rfl, ?_⟩
  · show (formatResults
        (processHits useSemanticReranker threshold maxResults hits)).length ≤
      maxResults
    rw [length_formatResults]
    by_cases hr : useSemanticReranker = true
    · unfold processHits
      rw [hr, if_pos rfl]
      exact List.length_take_le maxResults _
    · simp only [Bool.not_eq_true] at hr
      subst hr
      unfold processHits
      simp only [Bool.false_eq_true, if_false]
      simpa [buildSearchParams] using hlen
  · intro hr r hmem
    unfold processHits at hmem
    rw [hr, if_pos rfl, filterLoop_eq_filter] at hmem
    exact (List.mem_filter.mp (List.mem_of_mem_take hmem)).2

/-- C5 witness: a concrete reranking call on three hits with scores
`none`, 3 and 5 against threshold 2 and `max_results = 1`. -/
theorem search_output_invariant_witness :
    ([⟨some "c1", some "t1.pdf", some "u1", none⟩,
      ⟨some "c2", some "t2.pdf", some "u2", some 3⟩,
      ⟨some "c3", some "t3.pdf", some "u3", some 5⟩] : List RawHit).length ≤
        (buildSearchParams "q" 1 true).top ∧
      (clientSearch 1 true 2
        (.ok [⟨some "c1", some "t1.pdf", some "u1", none⟩,
              ⟨some "c2", some "t2.pdf", some "u2", some 3⟩,
              ⟨some "c3", some "t3.pdf", some "u3", some 5⟩])).length ≤ 1 :=
  ⟨by decide,
    (search_output_invariant "q" 1 true 2
      [⟨some "c1", some "t1.pdf", some "u1", none⟩,
       ⟨some "c2", some "t2.pdf", some "u2", some 3⟩,
       ⟨some "c3", some "t3.pdf", some "u3", some 5⟩] (by decide)).1⟩

/-- C6: a request whose `X-API-KEY` header is absent or differs from the
configured secret is answered with a 401 `{error: "Unauthorized"}` body and
is not forwarded, so no downstream component runs; a matching header makes
the middleware forward the request unchanged. -/
theorem auth_gate (key : String) (req : HttpRequest) :
    (req.headers.lookup "X-API-KEY" ≠ some key →
      dispatch key req = .rejected 401 [("error", "Unauthorized")]) ∧
    (req.headers.lookup "X-API-KEY" = some key →
      dispatch key req = .forwarded req) := by
  constructor
  · intro h
    unfold dispatch
    rw [if_neg h]
  · intro h
    unfold dispatch
    rw [if_pos h]

/-- C6 witness: with secret `"sec"`, a request with no headers is rejected
with 401 Unauthorized and a request carrying the right header is forwarded
unchanged. -/
theorem auth_gate_witness :
    dispatch "sec" ⟨[], "payload"⟩ =
        .rejected 401 [("error", "Unauthorized")] ∧
      dispatch "sec" ⟨[("X-API-KEY", "sec")], "payload"⟩ =
        .forwarded ⟨[("X-API-KEY", "sec")], "payload"⟩ :=
  ⟨(auth_gate "sec" ⟨[], "payload"⟩).1 (by decide),
    (auth_gate "sec" ⟨[("X-API-KEY", "sec")], "payload"⟩).2 (by decide)⟩

/-- C7: the formatter passes `chunk` and `url` through unchanged, removes
everything from (and including) the final dot of the title, and leaves a
dot-free title unchanged. -/
theorem formatter_contract (r : RawHit) :
    (formatResult r).chunk = r.chunk.getD "" ∧
    (formatResult r).url = r.url.getD "" ∧
    ('.' ∉ (r.title.getD "").data →
      (formatResult r).title = r.title.getD "") ∧
    (∀ a b : List Char, (r.title.getD "").data = a ++ '.' :: b →
      '.' ∉ b → (formatResult r).title = String.mk a) := by
  refine ⟨rfl, rfl, ?_, ?_⟩
  · intro h
    show stripExtension (r.title.getD "") = r.title.getD ""
    exact stripExtension_no_dot h
  · intro a b hsplit hb
    show stripExtension (r.title.getD "") = String.mk a
    have hs := string_mk_data (r.title.getD "")
    rw [hsplit] at hs
    rw [← hs]
    exact stripExtension_last_dot a hb

/-- C7 witness: a title `"Policy-21.pdf"` is formatted as `"Policy-21"` and
a dot-free title `"ReadMe"` is left unchanged. -/
theorem formatter_contract_witness :
    (formatResult ⟨some "c", some "Policy-21.pdf", some "u", none⟩).title =
        "Policy-21" ∧
      (formatResult ⟨some "c", some "ReadMe", some "u", none⟩).title =
        "ReadMe" := by
  constructor
  · have h :=
      (formatter_contract
        ⟨some "c", some "Policy-21.pdf", some "u", none⟩).2.2.2
        "Policy-21".data "pdf".data (by decide) (by decide)
    exact h
  · have h :=
      (formatter_contract ⟨some "c", some "ReadMe", some "u", none⟩).2.2.1
        (by decide)
    exact h

/-- C9: a successful backend call with zero hits yields the empty list from
the orchestrator and from the tool — distinct from the synthetic error
entry produced on failure. -/
theorem empty_success_distinct (maxResults : Nat)
    (useSemanticReranker : Bool) (threshold : Rat) (env : Env)
    (cfg : ServerConfig) (q : String) (c : ClientConfig)
    (hc : clientInit env = .ok c) (msg : String) :
    clientSearch maxResults useSemanticReranker threshold (.ok []) = [] ∧
      toolSearch env cfg q maxResults (.ok []) = [] ∧
      ([] : List (List (String × String))) ≠ [syntheticErrorEntry msg] := by
  have hempty : ∀ rerank : Bool, ∀ th : Rat,
      clientSearch maxResults rerank th (.ok []) = [] := by
    intro rerank th
    cases rerank <;>
      simp [clientSearch, processHits, filterLoop, formatResults]
  refine ⟨hempty useSemanticReranker threshold, ?_, by simp⟩
  unfold toolSearch
  rw [hc, hempty cfg.useSemanticReranker cfg.rerankerThreshold]
  rfl

/-- C9 witness: with a fully configured environment, a zero-hit backend
response makes the tool return the empty list. -/
theorem empty_success_distinct_witness :
    clientInit ⟨some "s", some "e", some "k", some "i", none, none⟩ =
        .ok ⟨"e", "k", "i"⟩ ∧
      toolSearch ⟨some "s", some "e", some "k", some "i", none, none⟩
        ⟨"s", false, mkRat 5 2⟩ "q" 5 (.ok []) = [] :=
  ⟨rfl,
    (empty_success_distinct 5 false (mkRat 5 2)
      ⟨some "s", some "e", some "k", some "i", none, none⟩
      ⟨"s", false, mkRat 5 2⟩ "q" ⟨"e", "k", "i"⟩ rfl "m").2.1⟩

/-- C10: with semantic reranking enabled, a hit whose reranker score is
absent is discarded by the filter for every threshold, however low. -/
theorem missing_score_always_filtered (threshold : Rat) (maxResults : Nat)
    (hits : List RawHit) (r : RawHit) (h : r.rerankerScore = none) :
    r ∉ processHits true threshold maxResults hits := by
  intro hmem
  unfold processHits at hmem
  rw [if_pos rfl, filterLoop_eq_filter] at hmem
  have hpass := (List.mem_filter.mp (List.mem_of_mem_take hmem)).2
  unfold meetsThreshold at hpass
  rw [h] at hpass
  exact Bool.noConfusion hpass

/-- C10 witness: with an arbitrarily low threshold, a score-less hit is not
in the processed list. -/
theorem missing_score_always_filtered_witness :
    (⟨some "c", some "t", some "u", none⟩ : RawHit).rerankerScore = none ∧
      (⟨some "c", some "t", some "u", none⟩ : RawHit) ∉
        processHits true (mkRat (-1000) 1) 5
          [⟨some "c", some "t", some "u", none⟩] :=
  ⟨rfl,
    missing_score_always_filtered (mkRat (-1000) 1) 5
      [⟨some "c", some "t", some "u", none⟩]
      ⟨some "c", some "t", some "u", none⟩ rfl⟩

/-- C4 counterexample: with a fully configured environment, a backend
timeout during a search tool call yields the empty list, not the synthetic
`Search Error` entry claimed — and the synthetic entry, where it does occur,
keys its text under `content`, not `chunk`. -/
theorem tool_error_payload_counterexample :
    toolSearch ⟨some "s", some "e", some "k", some "i", none, none⟩
        ⟨"s", false, mkRat 5 2⟩ "q" 5 (.error (.otherError "timeout")) =
        [] ∧
      ([] : List (List (String × String))) ≠
        [[("title", "Search Error"), ("url", ""),
          ("chunk", "Could not perform a search at this time: timeout")]] ∧
      syntheticErrorEntry "timeout" =
        [("title", "Search Error"), ("url", ""),
         ("content", "Could not perform a search at this time: timeout")] :=
  ⟨rfl, by simp, rfl⟩

/-- C4 amended: backend errors are caught inside the search client, so a
backend connection/timeout error makes the tool return the empty list; an
exception that does reach the tool boundary (client construction failing on
missing configuration) is converted into the single synthetic entry
`{title: "Search Error", url: "", content: "Could not perform a search at
this time: <message>"}`, whose text field is keyed `content`. -/
theorem tool_error_adaptation (env : Env) (cfg : ServerConfig) (q : String)
    (maxResults : Nat) (e : BackendError)
    (out : Except BackendError (List RawHit)) (msg : String)
    (c : ClientConfig) :
    (clientInit env = .ok c →
      toolSearch env cfg q maxResults (.error e) = []) ∧
    (clientInit env = .error msg →
      toolSearch env cfg q maxResults out =
        [[("title", "Search Error"), ("url", ""),
          ("content", "Could not perform a search at this time: " ++ msg)]]) := by
  constructor
  · intro hc
    unfold toolSearch
    rw [hc]
    rfl
  · intro hc
    unfold toolSearch
    rw [hc]
    rfl

/-- C4 amended witness: a backend timeout with a configured client yields
`[]`; a missing `AZURE_SEARCH_KEY` yields the synthetic `content`-keyed
entry for any backend outcome. -/
theorem tool_error_adaptation_witness :
    toolSearch ⟨some "s", some "e", some "k", some "i", none, none⟩
        ⟨"s", false, mkRat 5 2⟩ "q" 5 (.error (.otherError "timeout")) =
        [] ∧
      toolSearch ⟨some "s", some "e", none, some "i", none, none⟩
        ⟨"s", false, mkRat 5 2⟩ "q" 5 (.ok []) =
        [[("title", "Search Error"), ("url", ""),
          ("content",
            "Could not perform a search at this time: AZURE_SEARCH_KEY environment variable is required")]] :=
  ⟨(tool_error_adaptation ⟨some "s", some "e", some "k", some "i", none, none⟩
      ⟨"s", false, mkRat 5 2⟩ "q" 5 (.otherError "timeout") (.ok []) "m"
      ⟨"e", "k", "i"⟩).1 rfl,
    (tool_error_adaptation ⟨some "s", some "e", none, some "i", none, none⟩
      ⟨"s", false, mkRat 5 2⟩ "q" 5 (.otherError "timeout") (.ok [])
      "AZURE_SEARCH_KEY environment variable is required"
      ⟨"e", "k", "i"⟩).2 rfl⟩

/-- C8 counterexample: with the shared secret configured but
`AZURE_SEARCH_KEY` missing, server startup succeeds (the process begins
serving), contradicting the claim that a missing backend connection
parameter is fatal at startup; the missing parameter is only detected when
a client is constructed. -/
theorem startup_counterexample :
    serverStartup ⟨some "secret", some "e", none, some "i", none, none⟩ =
        .ok ⟨"secret", false, mkRat 5 2⟩ ∧
      clientInit ⟨some "secret", some "e", none, some "i", none, none⟩ =
        .error "AZURE_SEARCH_KEY environment variable is required" :=
  ⟨rfl, rfl⟩

/-- C8 amended: a missing (or empty) shared secret is fatal at startup; a
missing backend connection parameter — key, endpoint or index name, checked
in that order — is not checked at startup but makes every per-call client
construction fail, so that search call returns the synthetic error entry;
a per-request auth-header mismatch is never fatal — it is answered with a
401 rejection. -/
theorem startup_and_config_failures (env : Env) (cfg : ServerConfig)
    (q : String) (maxResults : Nat)
    (out : Except BackendError (List RawHit)) (key : String)
    (req : HttpRequest) :
    (truthy env.mcpAuthKey = false →
      serverStartup env =
        .error "MCP_AUTH_KEY environment variable not set") ∧
    (truthy env.azureSearchKey = false →
      clientInit env =
        .error "AZURE_SEARCH_KEY environment variable is required") ∧
    (truthy env.azureSearchKey = true →
      truthy env.azureSearchEndpoint = false →
      clientInit env =
        .error "AZURE_SEARCH_ENDPOINT environment variable is required") ∧
    (truthy env.azureSearchKey = true →
      truthy env.azureSearchEndpoint = true →
      truthy env.azureSearchIndex = false →
      clientInit env =
        .error "AZURE_SEARCH_INDEX environment variable is required") ∧
    (∀ msg, clientInit env = .error msg →
      toolSearch env cfg q maxResults out = [syntheticErrorEntry msg]) ∧
    ((truthy env.azureSearchKey = false ∨
        truthy env.azureSearchEndpoint = false ∨
        truthy env.azureSearchIndex = false) →
      ∃ msg, clientInit env = .error msg ∧
        toolSearch env cfg q maxResults out = [syntheticErrorEntry msg]) ∧
    (req.headers.lookup "X-API-KEY" ≠ some key →
      dispatch key req = .rejected 401 [("error", "Unauthorized")]) := by
  have htool : ∀ msg, clientInit env = .error msg →
      toolSearch env cfg q maxResults out = [syntheticErrorEntry msg] := by
    intro msg hcl
    unfold toolSearch
    rw [hcl]
  have hkey : truthy env.azureSearchKey = false →
      clientInit env =
        .error "AZURE_SEARCH_KEY environment variable is required" := by
    intro h
    unfold clientInit
    rw [h]
    rfl
  have hendpoint : truthy env.azureSearchKey = true →
      truthy env.azureSearchEndpoint = false →
      clientInit env =
        .error "AZURE_SEARCH_ENDPOINT environment variable is required" := by
    intro hk he
    unfold clientInit
    rw [hk, he]
    rfl
  have hindex : truthy env.azureSearchKey = true →
      truthy env.azureSearchEndpoint = true →
      truthy env.azureSearchIndex = false →
      clientInit env =
        .error "AZURE_SEARCH_INDEX environment variable is required" := by
    intro hk he hi
    unfold clientInit
    rw [hk, he, hi]
    rfl
  refine ⟨?_, hkey, hendpoint, hindex, htool, ?_, ?_⟩
  · intro h
    unfold serverStartup
    rw [h]
    rfl
  · intro hor
    cases hk : truthy env.azureSearchKey with
    | false =>
        have hcl := hkey hk
        exact ⟨_, hcl, htool _ hcl⟩
    | true =>
        cases he : truthy env.azureSearchEndpoint with
        | false =>
            have hcl := hendpoint hk he
            exact ⟨_, hcl, htool _ hcl⟩
        | true =>
            have hi : truthy env.azureSearchIndex = false := by
              rcases hor with h | h | h
              · rw [hk] at h
                exact Bool.noConfusion h
              · rw [he] at h
                exact Bool.noConfusion h
              · exact h
            have hcl := hindex hk he hi
            exact ⟨_, hcl, htool _ hcl⟩
  · intro h
    unfold dispatch
    rw [if_neg h]

/-- C8 amended witness: concrete environments exercising the missing-secret
startup failure, the per-call failure for each missing backend parameter
(key, endpoint, index name) with the tool's synthetic entry, and the
non-fatal header mismatch. -/
theorem startup_and_config_failures_witness :
    serverStartup ⟨none, some "e", some "k", some "i", none, none⟩ =
        .error "MCP_AUTH_KEY environment variable not set" ∧
      toolSearch ⟨some "s", some "e", none, some "i", none, none⟩
        ⟨"s", false, mkRat 5 2⟩ "q" 5 (.ok []) =
        [syntheticErrorEntry
          "AZURE_SEARCH_KEY environment variable is required"] ∧
      toolSearch ⟨some "s", none, some "k", some "i", none, none⟩
        ⟨"s", false, mkRat 5 2⟩ "q" 5 (.ok []) =
        [syntheticErrorEntry
          "AZURE_SEARCH_ENDPOINT environment variable is required"] ∧
      toolSearch ⟨some "s", some "e", some "k", none, none, none⟩
        ⟨"s", false, mkRat 5 2⟩ "q" 5 (.ok []) =
        [syntheticErrorEntry
          "AZURE_SEARCH_INDEX environment variable is required"] ∧
      dispatch "s" ⟨[("X-API-KEY", "wrong")], "b"⟩ =
        .rejected 401 [("error", "Unauthorized")] := by
  have tkey := startup_and_config_failures
    ⟨some "s", some "e", none, some "i", none, none⟩
    ⟨"s", false, mkRat 5 2⟩ "q" 5 (.ok []) "s"
    ⟨[("X-API-KEY", "wrong")], "b"⟩
  have tendpoint := startup_and_config_failures
    ⟨some "s", none, some "k", some "i", none, none⟩
    ⟨"s", false, mkRat 5 2⟩ "q" 5 (.ok []) "s"
    ⟨[("X-API-KEY", "wrong")], "b"⟩
  have tindex := startup_and_config_failures
    ⟨some "s", some "e", some "k", none, none, none⟩
    ⟨"s", false, mkRat 5 2⟩ "q" 5 (.ok []) "s"
    ⟨[("X-API-KEY", "wrong")], "b"⟩
  have tsecret := startup_and_config_failures
    ⟨none, some "e", some "k", some "i", none, none⟩
    ⟨"s", false, mkRat 5 2⟩ "q" 5 (.ok []) "s"
    ⟨[("X-API-KEY", "wrong")], "b"⟩
  exact ⟨tsecret.1 rfl,
    tkey.2.2.2.2.1 _ (tkey.2.1 rfl),
    tendpoint.2.2.2.2.1 _ (tendpoint.2.2.1 rfl rfl),
    tindex.2.2.2.2.1 _ (tindex.2.2.2.1 rfl rfl rfl),
    tsecret.2.2.2.2.2.2 (by decide)⟩

end MCPSearch
